import Mathlib

/-!
Shallow embedding of the session-continuity layer in
`src/claude_agent_quick_start_agentcore.py`:

* the session-marker codec (the marker text `"__SESSION__:"`, the f-string
  encoding in `save_session_id`, and the check-and-strip decoding performed
  while scanning stored events in `get_stored_session_id`),
* the session resolver `get_stored_session_id` scanning the events returned
  by the memory client, and
* the continuity controller `main` with its resume-with-fallback control flow.

Modelling conventions: Python strings are Lean `String` values (operated on
through their underlying `List Char` where recursion is needed); Python
`None`-able strings are `Option String`; a raised exception is an `Except`
value or an explicit error result; the two external collaborators (the
memory client and the agent invoker) are oracle values handed to the
controller, and the controller's observable effects (listing calls, invoker
calls with their resume hints, batches passed to `create_event`) are
collected in an explicit `Trace`.
-/

namespace AgentCore

/-- The reserved marker text `"__SESSION__:"` (source lines 73, 74, 98),
as a list of characters. -/
def MARKER : List Char := "__SESSION__:".data

/-- Python `text.startswith(pat)` on character lists: `startsWithL pat s`
is true iff `pat` is an initial segment of `s`. -/
def startsWithL : List Char → List Char → Bool
  | [], _ => true
  | _ :: _, [] => false
  | p :: ps, c :: cs => p == c && startsWithL ps cs

/-- Python substring test `pat in s` on character lists. -/
def containsSub (pat : List Char) : List Char → Bool
  | [] => startsWithL pat []
  | c :: rest => startsWithL pat (c :: rest) || containsSub pat rest

/-- Worker for `removeMarker`, structurally recursive on a fuel argument so
that it evaluates inside the kernel.  The fuel never runs out when it starts
at the length of the list. -/
def removeMarkerFuel : Nat → List Char → List Char
  | _, [] => []
  | 0, s => s
  | f + 1, c :: rest =>
    if startsWithL MARKER (c :: rest) then removeMarkerFuel f (rest.drop 11)
    else c :: removeMarkerFuel f rest

/-- Python `content.replace("__SESSION__:", "")` (source line 74): delete
every left-to-right, non-overlapping occurrence of the marker text. -/
def removeMarker (s : List Char) : List Char := removeMarkerFuel s.length s

/-- Python per-character whitespace test `str.isspace()`, the set
`str.strip()` removes: the control characters 0x09-0x0d and 0x1c-0x1f,
space, NEL (0x85), NBSP (0xa0), Ogham space mark (0x1680), the Unicode
spaces 0x2000-0x200a, line and paragraph separators (0x2028, 0x2029),
narrow NBSP (0x202f), medium mathematical space (0x205f) and ideographic
space (0x3000). -/
def pyIsSpace (c : Char) : Bool :=
  (0x09 ≤ c.val && c.val ≤ 0x0d) || (0x1c ≤ c.val && c.val ≤ 0x1f) ||
  c.val == 0x20 || c.val == 0x85 || c.val == 0xa0 || c.val == 0x1680 ||
  (0x2000 ≤ c.val && c.val ≤ 0x200a) || c.val == 0x2028 || c.val == 0x2029 ||
  c.val == 0x202f || c.val == 0x205f || c.val == 0x3000

/-- Python `str.strip()`: drop Python-whitespace characters from both ends. -/
def pyStrip (s : List Char) : List Char :=
  ((s.dropWhile pyIsSpace).reverse.dropWhile pyIsSpace).reverse

/-- The decoding performed on each stored message text (source lines 73-74):
if the text starts with the marker, remove the marker text everywhere
(`str.replace` with an empty replacement) and strip whitespace; otherwise
the text is not a marker.  Total: absence is an ordinary `none` result. -/
def decode (content : String) : Option String :=
  if startsWithL MARKER content.data then
    some (String.mk (pyStrip (removeMarker content.data)))
  else none

/-- The encoding used when persisting a handle (source line 98):
the f-string `"__SESSION__:" followed by the handle`. -/
def encode (h : String) : String := String.mk (MARKER ++ h.data)

/-- One message object inside a stored event's payload.  `malformed` models a
payload entry that is not a dict (skipped by the `isinstance(msg, dict)`
check, line 69); `msg role content` models a conversational message whose
role string the scanner never reads, and whose extracted
`conversational.content.text` is `some text` when it is a string and `none`
when it is not a string (the `isinstance(content, str)` check, line 73; a
missing text defaults to the empty string and is modelled as `some ""`). -/
inductive MsgItem where
  | malformed : MsgItem
  | msg (role : String) (content : Option String) : MsgItem
deriving DecidableEq

/-- One stored event.  `malformed` models an event that is not a dict or
whose payload is not a list (skipped by lines 59-64); `ok payload` models a
well-formed event with its payload list. -/
inductive MemEvent where
  | malformed : MemEvent
  | ok (payload : List MsgItem) : MemEvent
deriving DecidableEq

/-- The per-message work of the scanning loop (lines 67-76): skip non-dict
entries and non-string contents, otherwise attempt the marker decoding.
The role of the message is never consulted. -/
def msgDecode : MsgItem → Option String
  | .malformed => none
  | .msg _ none => none
  | .msg _ (some content) => decode content

/-- The inner `for msg in payload` loop (lines 67-76): first successful
decode wins, via early return. -/
def scanMsgs : List MsgItem → Option String
  | [] => none
  | m :: rest =>
    match msgDecode m with
    | some sid => some sid
    | none => scanMsgs rest

/-- The messages an event contributes to the scan (lines 59-64). -/
def eventMsgs : MemEvent → List MsgItem
  | .malformed => []
  | .ok payload => payload

/-- The outer `for event in events` loop (lines 58-76), in the order the
store returned the events; first successful decode wins via early return. -/
def scanEvents : List MemEvent → Option String
  | [] => none
  | e :: rest =>
    match scanMsgs (eventMsgs e) with
    | some sid => some sid
    | none => scanEvents rest

/-- Python `a or b` for an optional string `a` and a string fallback `b`:
`None` and the empty string are falsy. -/
def pyOrS (a : Option String) (b : String) : String :=
  match a with
  | some s => if s = "" then b else s
  | none => b

/-- The module-level `MEMORY_ID` configuration chain (lines 28-32):
`os.environ.get("BEDROCK_AGENTCORE_MEMORY_ID") or os.environ.get("MEMORY_ID")
or "claudeagentsdkdemo_mem-ASCTQAHVFO"`, with the two environment lookups
modelled as optional strings. -/
def MEMORY_ID (env1 env2 : Option String) : String :=
  pyOrS env1 (pyOrS env2 "claudeagentsdkdemo_mem-ASCTQAHVFO")

/-- `get_stored_session_id` (lines 43-81).  The memory client's
`list_events` call is modelled by its outcome `listResult`: `.error e` when
the call raised (the `except` branch returns `None`, line 79-81) and
`.ok events` when it returned a list of events, which is then scanned.  The
`if not MEMORY_ID` guard (line 45) is kept. -/
def get_stored_session_id (env1 env2 : Option String)
    (listResult : Except String (List MemEvent)) : Option String :=
  if MEMORY_ID env1 env2 = "" then none
  else
    match listResult with
    | .error _ => none
    | .ok events => scanEvents events

/-- Spec-side per-message decoding, for refinement comparison with
`msgDecode`: section 4.2 of the spec says decoding is attempted only "for
each event of role OTHER". -/
def msgDecodeSpec : MsgItem → Option String
  | .malformed => none
  | .msg _ none => none
  | .msg role (some content) => if role = "OTHER" then decode content else none

/-- Spec-side inner scan, for refinement comparison with `scanMsgs`. -/
def scanMsgsSpec : List MsgItem → Option String
  | [] => none
  | m :: rest =>
    match msgDecodeSpec m with
    | some sid => some sid
    | none => scanMsgsSpec rest

/-- Spec-side resolver scan, for refinement comparison with `scanEvents`:
identical iteration order, but decoding only messages of role OTHER. -/
def scanEventsSpec : List MemEvent → Option String
  | [] => none
  | e :: rest =>
    match scanMsgsSpec (eventMsgs e) with
    | some sid => some sid
    | none => scanEventsSpec rest

/-- The inbound payload (lines 120, 125): `prompt` is `payload.get("prompt")`
and `conversation_id` is `payload.get("conversation_id")`, each `none` when
absent or null. -/
structure Payload where
  prompt : Option String
  conversation_id : Option String
deriving DecidableEq

/-- The request context (line 127): only its `session_id` is read. -/
structure ReqContext where
  session_id : Option String
deriving DecidableEq

/-- Outcome of one `execute_query` call (lines 137-164): on success, the
list of streamed text blocks and the `session_id` of the final
`ResultMessage` (`none` when no `ResultMessage` was received); `err` models
a raised exception carrying `str(e)`. -/
inductive ExecResult where
  | ok (responses : List String) (session_id : Option String) : ExecResult
  | err (msg : String) : ExecResult
deriving DecidableEq

/-- The external collaborators for one request: the memory client's listing
outcome, the agent invoker as a function of the optional resume hint, and
the memory client's `create_event` outcome. -/
structure Oracles where
  listEvents : Except String (List MemEvent)
  invoke : Option String → ExecResult
  createEvent : Except String Unit

/-- One batch of `(text, role)` messages passed to `create_event`
(lines 95-99). -/
abbrev Batch := List (String × String)

/-- Observable effects of one request: how many times the store was listed,
the invoker calls in order with their resume hints, and the batches passed
to `create_event`. -/
structure Trace where
  listCalls : Nat
  invokerCalls : List (Option String)
  appends : List Batch
deriving DecidableEq

/-- The entrypoint's returned dict: `{"error": msg}` or
`{"response": ..., "conversation_id": ..., "session_id": ...}` where the
session id may be null (lines 118, 122, 190, 198-202). -/
inductive MainResult where
  | err (msg : String) : MainResult
  | success (response : String) (conversation_id : String)
      (session_id : Option String) : MainResult
deriving DecidableEq

/-- Python truthiness of an optional string: `None` and `""` are falsy. -/
def truthyO : Option String → Bool
  | none => false
  | some s => !(s == "")

/-- Conversation-id selection (lines 125-129): the payload's
`conversation_id` if truthy, else the context's `session_id or "default"`
when a context is present, else `"default"`. -/
def resolveCid (p : Payload) (ctx : Option ReqContext) : String :=
  let fb : String :=
    match ctx with
    | some rc =>
      match rc.session_id with
      | some s => if s = "" then "default" else s
      | none => "default"
    | none => "default"
  match p.conversation_id with
  | some c => if c = "" then fb else c
  | none => fb

/-- `save_session_id` (lines 84-103): return without doing anything when
`MEMORY_ID` or the session id is falsy; otherwise call `create_event` with
the 3-message batch.  The result is the list of batches passed to
`create_event`; both the success branch and the `except` branch of the
try/except fall through (the exception is swallowed, lines 102-103), so the
attempted batch is recorded either way. -/
def save_session_id (env1 env2 : Option String) (session_id : String)
    (user_input response : String) (createResult : Except String Unit) :
    List Batch :=
  if MEMORY_ID env1 env2 = "" ∨ session_id = "" then []
  else
    match createResult with
    | .ok _ =>
      [[(user_input, "USER"), (response, "ASSISTANT"), (encode session_id, "OTHER")]]
    | .error _ =>
      [[(user_input, "USER"), (response, "ASSISTANT"), (encode session_id, "OTHER")]]

/-- The resume-failure classification (lines 178-179): lowercase `str(e)` and
test the two substrings `"no conversation found"` and `"exit code 1"`. -/
def resumeFailureMatches (m : String) : Bool :=
  containsSub "no conversation found".data (m.data.map Char.toLower) ||
  containsSub "exit code 1".data (m.data.map Char.toLower)

/-- One fresh attempt (lines 181, 186): invoke with no resume hint; the
outcome together with the recorded invoker call. -/
def freshAttempt (invoke : Option String → ExecResult) :
    Except String (List String × Option String) × List (Option String) :=
  match invoke none with
  | .ok r sid => (.ok (r, sid), [none])
  | .err m => (.error m, [none])

/-- The resume attempt with its fallback (lines 171-183): invoke with the
stored handle as resume hint; on an exception whose lowercased message
matches an expected-invalidity signature, perform exactly one fresh attempt;
any other exception is re-raised (and caught by the outer handler). -/
def resumeAttempt (s : String) (invoke : Option String → ExecResult) :
    Except String (List String × Option String) × List (Option String) :=
  match invoke (some s) with
  | .ok r sid => (.ok (r, sid), [some s])
  | .err m =>
    if resumeFailureMatches m then
      match invoke none with
      | .ok r sid => (.ok (r, sid), [some s, none])
      | .err m2 => (.error m2, [some s, none])
    else (.error m, [some s])

/-- The try-block of lines 170-186: resume when a truthy stored handle was
resolved (`if stored_session:`), else go fresh. -/
def runAttempts (stored : Option String) (invoke : Option String → ExecResult) :
    Except String (List String × Option String) × List (Option String) :=
  match stored with
  | none => freshAttempt invoke
  | some s => if s = "" then freshAttempt invoke else resumeAttempt s invoke

/-- The body of `main` after input validation (lines 124-202): pick the
conversation id, resolve the stored session, run the attempts, and on
success join the streamed texts with newlines, persist when a truthy session
id was returned, and build the success dict.  On failure the outer `except`
returns `{"error": str(e)}` (lines 188-190) and nothing is persisted. -/
def mainCore (env1 env2 : Option String) (p : Payload) (ctx : Option ReqContext)
    (orc : Oracles) : MainResult × Trace :=
  let prompt := p.prompt.getD ""
  let cid := resolveCid p ctx
  let stored := get_stored_session_id env1 env2 orc.listEvents
  match runAttempts stored orc.invoke with
  | (.error m, calls) => (.err m, ⟨1, calls, []⟩)
  | (.ok (resps, osid), calls) =>
    let t := String.intercalate "\n" resps
    let appends :=
      match osid with
      | some sid =>
        if sid = "" then [] else save_session_id env1 env2 sid prompt t orc.createEvent
      | none => []
    (.success t cid osid, ⟨1, calls, appends⟩)

/-- The entrypoint `main` (lines 106-202).  A missing (or falsy, e.g. empty
dict) payload and a missing or empty prompt are rejected up front with an
error dict and an empty trace (lines 117-122); otherwise the request is
processed by `mainCore`. -/
def main (env1 env2 : Option String) (payload : Option Payload)
    (ctx : Option ReqContext) (orc : Oracles) : MainResult × Trace :=
  match payload with
  | none => (.err "No payload provided", ⟨0, [], []⟩)
  | some p =>
    if p.prompt.getD "" = "" then (.err "No prompt provided", ⟨0, [], []⟩)
    else mainCore env1 env2 p ctx orc

/-! ## Basic lemmas about the hand-rolled string operations -/

theorem startsWithL_self_append (p t : List Char) : startsWithL p (p ++ t) = true := by
  induction p with
  | nil => rfl
  | cons c cs ih => simp [startsWithL, ih]

theorem removeMarkerFuel_congr :
    ∀ (f1 : Nat), ∀ (f2 : Nat) (s : List Char), s.length ≤ f1 → s.length ≤ f2 →
      removeMarkerFuel f1 s = removeMarkerFuel f2 s := by
  intro f1
  induction f1 with
  | zero =>
    intro f2 s h1 _
    have hs : s = [] := List.eq_nil_of_length_eq_zero (Nat.le_zero.mp h1)
    subst hs
    cases f2 <;> rfl
  | succ a ih =>
    intro f2 s h1 h2
    cases s with
    | nil => cases f2 <;> rfl
    | cons c rest =>
      cases f2 with
      | zero => simp at h2
      | succ b =>
        show (if startsWithL MARKER (c :: rest) then removeMarkerFuel a (rest.drop 11)
              else c :: removeMarkerFuel a rest) =
            (if startsWithL MARKER (c :: rest) then removeMarkerFuel b (rest.drop 11)
              else c :: removeMarkerFuel b rest)
        simp only [List.length_cons] at h1 h2
        by_cases hsw : startsWithL MARKER (c :: rest) = true
        · rw [if_pos hsw, if_pos hsw]
          exact ih b (rest.drop 11) (by simp [List.length_drop]; omega)
            (by simp [List.length_drop]; omega)
        · rw [if_neg hsw, if_neg hsw]
          exact congrArg (c :: ·) (ih b rest (by omega) (by omega))

theorem removeMarker_cons (c : Char) (rest : List Char) :
    removeMarker (c :: rest) =
      if startsWithL MARKER (c :: rest) then removeMarker (rest.drop 11)
      else c :: removeMarker rest := by
  show (if startsWithL MARKER (c :: rest) then removeMarkerFuel rest.length (rest.drop 11)
        else c :: removeMarkerFuel rest.length rest) = _
  by_cases hsw : startsWithL MARKER (c :: rest) = true
  · rw [if_pos hsw, if_pos hsw]
    exact removeMarkerFuel_congr rest.length (rest.drop 11).length (rest.drop 11)
      (by simp [List.length_drop]) (le_refl _)
  · rw [if_neg hsw, if_neg hsw]
    rfl

theorem removeMarker_marker (t : List Char) :
    removeMarker (MARKER ++ t) = removeMarker t := by
  show removeMarker
      ('_' :: (['_', 'S', 'E', 'S', 'S', 'I', 'O', 'N', '_', '_', ':'] ++ t)) = removeMarker t
  rw [removeMarker_cons,
    if_pos (show startsWithL MARKER
        ('_' :: (['_', 'S', 'E', 'S', 'S', 'I', 'O', 'N', '_', '_', ':'] ++ t)) = true
      from startsWithL_self_append MARKER t)]
  rfl

theorem startsWithL_iff (p : List Char) : ∀ s : List Char,
    startsWithL p s = true ↔ ∃ t, s = p ++ t := by
  induction p with
  | nil =>
    intro s
    simp [startsWithL]
  | cons a ps ih =>
    intro s
    cases s with
    | nil =>
      simp [startsWithL]
    | cons c cs =>
      simp only [startsWithL, Bool.and_eq_true, beq_iff_eq, ih, List.cons_append,
        List.cons.injEq]
      constructor
      · rintro ⟨rfl, t, rfl⟩
        exact ⟨t, rfl, rfl⟩
      · rintro ⟨t, rfl, rfl⟩
        exact ⟨rfl, t, rfl⟩

theorem containsSub_iff (pat : List Char) : ∀ l : List Char,
    containsSub pat l = true ↔ ∃ l₁ l₂, l = l₁ ++ (pat ++ l₂) := by
  intro l
  induction l with
  | nil =>
    simp only [containsSub, startsWithL_iff]
    constructor
    · rintro ⟨t, ht⟩
      exact ⟨[], t, ht⟩
    · rintro ⟨l₁, l₂, h⟩
      rcases List.append_eq_nil.mp h.symm with ⟨rfl, h2⟩
      exact ⟨l₂, by simpa using h⟩
  | cons c rest ih =>
    simp only [containsSub, Bool.or_eq_true, startsWithL_iff, ih]
    constructor
    · rintro (⟨t, ht⟩ | ⟨l₁, l₂, hl⟩)
      · exact ⟨[], t, by simpa using ht⟩
      · exact ⟨c :: l₁, l₂, by simp [hl]⟩
    · rintro ⟨l₁, l₂, hl⟩
      cases l₁ with
      | nil => exact Or.inl ⟨l₂, by simpa using hl⟩
      | cons a l₁ =>
        simp only [List.cons_append, List.cons.injEq] at hl
        exact Or.inr ⟨l₁, l₂, hl.2⟩

theorem map_eq_append {f : Char → Char} {l a b : List Char} (h : l.map f = a ++ b) :
    ∃ a1 b1, l = a1 ++ b1 ∧ a1.map f = a ∧ b1.map f = b := by
  refine ⟨l.take a.length, l.drop a.length, (List.take_append_drop a.length l).symm, ?_, ?_⟩
  · rw [List.map_take, h, List.take_left]
  · rw [List.map_drop, h, List.drop_left]

theorem containsSub_map_toLower {sig : List Char} {m : List Char} :
    containsSub sig (m.map Char.toLower) = true ↔
      ∃ l₁ c l₂, m = l₁ ++ c ++ l₂ ∧ c.map Char.toLower = sig := by
  rw [containsSub_iff]
  constructor
  · rintro ⟨a, b, hab⟩
    rcases map_eq_append hab with ⟨a1, rest1, h1, h2, h3⟩
    rcases map_eq_append h3 with ⟨c1, b1, h4, h5, h6⟩
    exact ⟨a1, c1, b1, by rw [h1, h4, List.append_assoc], h5⟩
  · rintro ⟨l₁, c, l₂, rfl, hc⟩
    exact ⟨l₁.map Char.toLower, l₂.map Char.toLower,
      by simp [List.map_append, hc, List.append_assoc]⟩

theorem removeMarker_no_occ : ∀ s : List Char,
    containsSub MARKER s = false → removeMarker s = s := by
  intro s
  induction s with
  | nil => intro _; rfl
  | cons c rest ih =>
    intro h
    simp only [containsSub, Bool.or_eq_false_iff] at h
    rw [removeMarker_cons, if_neg (by simp [h.1]), ih h.2]

/-! ## Lemmas about the resolver scan and the configuration chain -/

theorem pyOrS_ne_empty (a : Option String) (b : String) (hb : b ≠ "") : pyOrS a b ≠ "" := by
  rcases a with _ | s
  · exact hb
  · show (if s = "" then b else s) ≠ ""
    by_cases hs : s = ""
    · rw [if_pos hs]; exact hb
    · rw [if_neg hs]; exact hs

theorem MEMORY_ID_ne_empty (env1 env2 : Option String) : MEMORY_ID env1 env2 ≠ "" :=
  pyOrS_ne_empty _ _ (pyOrS_ne_empty _ _ (by decide))

theorem scanMsgs_eq_findSome (l : List MsgItem) : scanMsgs l = l.findSome? msgDecode := by
  induction l with
  | nil => rfl
  | cons x rest ih =>
    cases hx : msgDecode x <;> simp [scanMsgs, hx, List.findSome?_cons, ih]

theorem scanMsgs_append (a b : List MsgItem) :
    scanMsgs (a ++ b) =
      match scanMsgs a with
      | some x => some x
      | none => scanMsgs b := by
  induction a with
  | nil => rfl
  | cons x rest ih =>
    cases hx : msgDecode x <;> simp [scanMsgs, hx, ih]

theorem scanEvents_eq_scanMsgs (events : List MemEvent) :
    scanEvents events = scanMsgs ((events.map eventMsgs).flatten) := by
  induction events with
  | nil => rfl
  | cons e rest ih =>
    simp only [List.map_cons, List.flatten_cons, scanMsgs_append]
    cases hx : scanMsgs (eventMsgs e) <;> simp [scanEvents, hx, ih]

theorem scanMsgs_none_of_all (l : List MsgItem)
    (h : ∀ x ∈ l, msgDecode x = none) : scanMsgs l = none := by
  induction l with
  | nil => rfl
  | cons x rest ih =>
    simp [scanMsgs, h x (by simp)]
    exact ih fun y hy => h y (by simp [hy])

theorem save_session_id_eq (env1 env2 : Option String) (sid u t : String)
    (r : Except String Unit) (hne : sid ≠ "") :
    save_session_id env1 env2 sid u t r =
      [[(u, "USER"), (t, "ASSISTANT"), (encode sid, "OTHER")]] := by
  unfold save_session_id
  rw [if_neg (fun hor => hor.elim (MEMORY_ID_ne_empty env1 env2) hne)]
  cases r <;> rfl

theorem save_session_id_indep (env1 env2 : Option String) (sid u t : String)
    (r : Except String Unit) :
    save_session_id env1 env2 sid u t r = save_session_id env1 env2 sid u t (.ok ()) := by
  unfold save_session_id
  cases r <;> rfl

/-! ## Claim C1 -/

/-- Claim C1, counterexample: the round-trip decode(encode(h)) = h fails as
stated, because decoding trims whitespace and removes every occurrence of the
marker text rather than only the leading one.  Shown at the non-empty handles
" x" (trimming) and "a__SESSION__:b" (replace-all). -/
theorem C1_counterexample :
    ((" x" : String) ≠ "" ∧ decode (encode " x") ≠ some " x") ∧
      (("a__SESSION__:b" : String) ≠ "" ∧
        decode (encode "a__SESSION__:b") ≠ some "a__SESSION__:b") := by
  decide

/-- Claim C1 (amended): for every non-empty handle string that has no leading
or trailing whitespace (it equals its own strip) and contains no occurrence
of the marker text, decoding the encoded marker returns the handle exactly:
decode(encode(h)) = h. -/
theorem C1_roundtrip (h : String) (_hne : h ≠ "")
    (htrim : pyStrip h.data = h.data)
    (hnom : containsSub MARKER h.data = false) :
    decode (encode h) = some h := by
  unfold decode encode
  rw [if_pos (show startsWithL MARKER (String.mk (MARKER ++ h.data)).data = true
    from startsWithL_self_append MARKER h.data)]
  show some (String.mk (pyStrip (removeMarker (MARKER ++ h.data)))) = some h
  rw [removeMarker_marker, removeMarker_no_occ h.data hnom, htrim]

/-- Witness for C1_roundtrip at the concrete handle "abc". -/
theorem C1_roundtrip_witness : decode (encode "abc") = some "abc" :=
  C1_roundtrip "abc" (by decide) (by decide) (by decide)

/-! ## Claim C2 -/

/-- Claim C2, counterexample: the bare marker text "__SESSION__:" is not the
encoding of any non-empty handle, yet decoding it returns the empty string
rather than none. -/
theorem C2_counterexample :
    (∀ h : String, h ≠ "" → encode h ≠ "__SESSION__:") ∧
      decode "__SESSION__:" = some "" := by
  constructor
  · intro h hne henc
    apply hne
    have h2 : MARKER ++ h.data = MARKER := congrArg String.data henc
    have hd : MARKER ++ h.data = MARKER ++ ([] : List Char) := by
      rw [List.append_nil]; exact h2
    have hnil : h.data = [] := List.append_cancel_left hd
    cases h with
    | mk d =>
      have hd2 : d = [] := hnil
      subst hd2
      rfl
  · decide

/-- Claim C2 (amended): decode returns a value exactly when the text starts
with the marker text (exact, case-sensitive, no leading transformation); in
particular decode(s) = none for every string that is neither produced by
encode nor the bare marker text itself, and decode is a total function — it
never raises on malformed or empty input. -/
theorem C2_decode_iff (s : String) : (decode s).isSome = startsWithL MARKER s.data := by
  unfold decode
  by_cases hsw : startsWithL MARKER s.data = true
  · rw [if_pos hsw, hsw]
    rfl
  · rw [if_neg hsw]
    simp only [Option.isSome_none]
    exact (Bool.not_eq_true _).mp (fun hc => hsw hc) |>.symm

/-! ## Claim C3 -/

/-- Claim C3, counterexample: the scanner ignores message roles — it decodes
a marker carried by a USER-role message — whereas the claim says decoding is
attempted only on events of role OTHER (the spec-side role-filtered scan
returns none on the same input). -/
theorem C3_counterexample :
    scanEventsSpec [.ok [.msg "USER" (some "__SESSION__:abc")]] = none ∧
      get_stored_session_id none none
        (.ok [.ok [.msg "USER" (some "__SESSION__:abc")]]) = some "abc" := by
  decide

/-- Claim C3 (amended): resolve scans the events in the order returned by the
store, attempting the decoding on every payload message regardless of role,
and returns the handle of the first message that decodes (the scan equals
List.findSome? over the flattened messages); hence when the listed events
contain exactly one decodable marker, its handle is returned regardless of
the other event content. -/
theorem C3_first_marker (env1 env2 : Option String) (events : List MemEvent)
    (l₁ l₂ : List MsgItem) (mm : MsgItem) (h : String)
    (hsplit : (events.map eventMsgs).flatten = l₁ ++ mm :: l₂)
    (h₁ : ∀ x ∈ l₁, msgDecode x = none)
    (hm : msgDecode mm = some h)
    (_h₂ : ∀ x ∈ l₂, msgDecode x = none) :
    get_stored_session_id env1 env2 (.ok events) = some h ∧
      scanEvents events = ((events.map eventMsgs).flatten).findSome? msgDecode := by
  have hscan : scanEvents events = some h := by
    rw [scanEvents_eq_scanMsgs, hsplit, scanMsgs_append, scanMsgs_none_of_all l₁ h₁]
    simp [scanMsgs, hm]
  constructor
  · unfold get_stored_session_id
    rw [if_neg (MEMORY_ID_ne_empty env1 env2)]
    exact hscan
  · rw [scanEvents_eq_scanMsgs, scanMsgs_eq_findSome]

/-- Witness for C3_first_marker on a concrete event list whose only decodable
marker sits between two non-marker messages and after a malformed event. -/
theorem C3_first_marker_witness :
    get_stored_session_id none none
        (.ok [.ok [.msg "USER" (some "hi")], .malformed,
          .ok [.msg "OTHER" (some "__SESSION__:s7"), .msg "ASSISTANT" (some "later")]]) =
      some "s7" ∧
    scanEvents [.ok [.msg "USER" (some "hi")], .malformed,
        .ok [.msg "OTHER" (some "__SESSION__:s7"), .msg "ASSISTANT" (some "later")]] =
      (([MemEvent.ok [.msg "USER" (some "hi")], .malformed,
        .ok [.msg "OTHER" (some "__SESSION__:s7"),
          .msg "ASSISTANT" (some "later")]].map eventMsgs).flatten).findSome? msgDecode :=
  C3_first_marker none none _ [.msg "USER" (some "hi")]
    [.msg "ASSISTANT" (some "later")] (.msg "OTHER" (some "__SESSION__:s7")) "s7"
    (by decide) (by decide) (by decide) (by decide)

/-! ## Claim C4 -/

/-- Claim C4: when the store listing call raised, the resolver returns none
(the exception never escapes its boundary, which is total by construction);
and whenever the resolver returns none for the request's listing outcome —
listing failed or no decodable marker was found — the controller proceeds
with exactly one fresh attempt, its single invoker call carrying no resume
hint. -/
theorem C4_resolve_none_fresh (env1 env2 : Option String) (errm : String)
    (p : Payload) (ctx : Option ReqContext) (orc : Oracles)
    (hprompt : p.prompt.getD "" ≠ "")
    (hres : get_stored_session_id env1 env2 orc.listEvents = none) :
    get_stored_session_id env1 env2 (.error errm) = none ∧
      (main env1 env2 (some p) ctx orc).2.invokerCalls = [none] := by
  constructor
  · unfold get_stored_session_id
    split <;> rfl
  · cases hiv : orc.invoke none with
    | ok r sid => simp [main, hprompt, mainCore, hres, runAttempts, freshAttempt, hiv]
    | err m => simp [main, hprompt, mainCore, hres, runAttempts, freshAttempt, hiv]

/-- Witness for C4_resolve_none_fresh with a throwing store listing. -/
theorem C4_witness :
    get_stored_session_id none none (.error "boom") = none ∧
      (main none none (some ⟨some "hello", some "c1"⟩) none
          ⟨.error "boom", fun _ => .ok ["hi there"] (some "sess-1"), .ok ()⟩).2.invokerCalls =
        [none] :=
  C4_resolve_none_fresh none none "boom" ⟨some "hello", some "c1"⟩ none
    ⟨.error "boom", fun _ => .ok ["hi there"] (some "sess-1"), .ok ()⟩
    (by decide) (by decide)

/-! ## Claim C5 -/

/-- Claim C5: when a stored handle resolved and the resume attempt failed
with a message matching the expected-invalidity signature, the controller
performs exactly one subsequent fresh attempt — the invoker is called
exactly twice, first with the resume hint, then without (at most one retry
per turn) — and when the fresh attempt succeeds with a handle distinct from
the stale one, the returned success carries the new handle, not the stale
one. -/
theorem C5_resume_fallback (env1 env2 : Option String) (p : Payload)
    (ctx : Option ReqContext) (orc : Oracles) (s m : String)
    (resp : List String) (sid2 : String)
    (hprompt : p.prompt.getD "" ≠ "")
    (hstored : get_stored_session_id env1 env2 orc.listEvents = some s) (hs : s ≠ "")
    (hfail : orc.invoke (some s) = .err m)
    (hmatch : resumeFailureMatches m = true)
    (hfresh : orc.invoke none = .ok resp (some sid2))
    (hdist : sid2 ≠ s) :
    (main env1 env2 (some p) ctx orc).2.invokerCalls = [some s, none] ∧
      (main env1 env2 (some p) ctx orc).1 =
        .success (String.intercalate "\n" resp) (resolveCid p ctx) (some sid2) ∧
      some sid2 ≠ some s := by
  refine ⟨?_, ?_, by simpa using hdist⟩ <;>
    simp [main, hprompt, mainCore, hstored, runAttempts, hs, resumeAttempt, hfail,
      hmatch, hfresh]

/-- Witness for C5_resume_fallback: a stale stored marker, a resume failure
with the "no conversation found" signature, and a fresh attempt issuing a
distinct handle. -/
theorem C5_witness :
    (main none none (some ⟨some "hello", some "c1"⟩) none
        ⟨.ok [.ok [.msg "OTHER" (some "__SESSION__:sess-x")]],
          fun r => match r with
            | some _ => .err "No conversation found for sess-x"
            | none => .ok ["ok"] (some "sess-y"),
          .ok ()⟩).2.invokerCalls = [some "sess-x", none] ∧
      (main none none (some ⟨some "hello", some "c1"⟩) none
          ⟨.ok [.ok [.msg "OTHER" (some "__SESSION__:sess-x")]],
            fun r => match r with
              | some _ => .err "No conversation found for sess-x"
              | none => .ok ["ok"] (some "sess-y"),
            .ok ()⟩).1 = .success "ok" "c1" (some "sess-y") ∧
      some "sess-y" ≠ some "sess-x" :=
  C5_resume_fallback none none ⟨some "hello", some "c1"⟩ none
    ⟨.ok [.ok [.msg "OTHER" (some "__SESSION__:sess-x")]],
      fun r => match r with
        | some _ => .err "No conversation found for sess-x"
        | none => .ok ["ok"] (some "sess-y"),
      .ok ()⟩ "sess-x" "No conversation found for sess-x" ["ok"] "sess-y"
    (by decide) (by decide) (by decide) rfl (by decide) rfl (by decide)

/-! ## Claim C6 -/

/-- Claim C6: when the resume attempt fails with a message not matching the
expected-invalidity signature, no fresh retry is performed (the invoker is
called exactly once, with the resume hint) and the error message is returned
verbatim to the caller as an error result. -/
theorem C6_unrelated_error_fatal (env1 env2 : Option String) (p : Payload)
    (ctx : Option ReqContext) (orc : Oracles) (s m : String)
    (hprompt : p.prompt.getD "" ≠ "")
    (hstored : get_stored_session_id env1 env2 orc.listEvents = some s) (hs : s ≠ "")
    (hfail : orc.invoke (some s) = .err m)
    (hnm : resumeFailureMatches m = false) :
    (main env1 env2 (some p) ctx orc).1 = .err m ∧
      (main env1 env2 (some p) ctx orc).2.invokerCalls = [some s] := by
  constructor <;>
    simp [main, hprompt, mainCore, hstored, runAttempts, hs, resumeAttempt, hfail, hnm]

/-- Witness for C6_unrelated_error_fatal with an auth-style failure. -/
theorem C6_witness :
    (main none none (some ⟨some "hello", some "c1"⟩) none
        ⟨.ok [.ok [.msg "OTHER" (some "__SESSION__:sess-x")]],
          fun _ => .err "AccessDeniedException: quota exceeded", .ok ()⟩).1 =
        .err "AccessDeniedException: quota exceeded" ∧
      (main none none (some ⟨some "hello", some "c1"⟩) none
          ⟨.ok [.ok [.msg "OTHER" (some "__SESSION__:sess-x")]],
            fun _ => .err "AccessDeniedException: quota exceeded", .ok ()⟩).2.invokerCalls =
        [some "sess-x"] :=
  C6_unrelated_error_fatal none none ⟨some "hello", some "c1"⟩ none
    ⟨.ok [.ok [.msg "OTHER" (some "__SESSION__:sess-x")]],
      fun _ => .err "AccessDeniedException: quota exceeded", .ok ()⟩
    "sess-x" "AccessDeniedException: quota exceeded"
    (by decide) (by decide) (by decide) rfl (by decide)

/-! ## Claim C7 -/

/-- Claim C7: on a successfully completed turn, if the invoker returned a
(truthy) session handle then exactly one batch of exactly 3 messages is
passed to create_event, in order (prompt, USER), (joined response text,
ASSISTANT), (encoded marker of the new handle, OTHER); if no truthy handle
was returned, no batch is passed at all. -/
theorem C7_persist_batch (env1 env2 : Option String) (p : Payload)
    (ctx : Option ReqContext) (orc : Oracles) (t cid : String) (osid : Option String)
    (hrun : (main env1 env2 (some p) ctx orc).1 = .success t cid osid) :
    (∀ sid, osid = some sid → sid ≠ "" →
      (main env1 env2 (some p) ctx orc).2.appends =
        [[(p.prompt.getD "", "USER"), (t, "ASSISTANT"), (encode sid, "OTHER")]]) ∧
    (truthyO osid = false → (main env1 env2 (some p) ctx orc).2.appends = []) := by
  by_cases hp : p.prompt.getD "" = ""
  · simp [main, hp] at hrun
  · rcases hra : runAttempts (get_stored_session_id env1 env2 orc.listEvents) orc.invoke
      with ⟨out, calls⟩
    cases out with
    | error m => simp [main, hp, mainCore, hra] at hrun
    | ok pr =>
      rcases pr with ⟨resps, osid2⟩
      cases osid2 with
      | none =>
        have h1 : (main env1 env2 (some p) ctx orc).1 =
            .success (String.intercalate "\n" resps) (resolveCid p ctx) none := by
          simp [main, hp, mainCore, hra]
        have h2 : (main env1 env2 (some p) ctx orc).2.appends = [] := by
          simp [main, hp, mainCore, hra]
        rw [h1] at hrun
        simp only [MainResult.success.injEq] at hrun
        obtain ⟨ht, hcid, hosid⟩ := hrun
        subst hosid
        exact ⟨fun sid hsid => by simp at hsid, fun _ => h2⟩
      | some sid =>
        by_cases hsid : sid = ""
        · subst hsid
          have h1 : (main env1 env2 (some p) ctx orc).1 =
              .success (String.intercalate "\n" resps) (resolveCid p ctx) (some "") := by
            simp [main, hp, mainCore, hra]
          have h2 : (main env1 env2 (some p) ctx orc).2.appends = [] := by
            simp [main, hp, mainCore, hra]
          rw [h1] at hrun
          simp only [MainResult.success.injEq] at hrun
          obtain ⟨ht, hcid, hosid⟩ := hrun
          subst hosid
          refine ⟨?_, fun _ => h2⟩
          intro sid2 hs2 hne2
          exact absurd (by simpa using hs2.symm) hne2
        · have hsave := save_session_id_eq env1 env2 sid (p.prompt.getD "")
            (String.intercalate "\n" resps) orc.createEvent hsid
          have h1 : (main env1 env2 (some p) ctx orc).1 =
              .success (String.intercalate "\n" resps) (resolveCid p ctx) (some sid) := by
            simp [main, hp, mainCore, hra]
          have h2 : (main env1 env2 (some p) ctx orc).2.appends =
              [[(p.prompt.getD "", "USER"),
                (String.intercalate "\n" resps, "ASSISTANT"), (encode sid, "OTHER")]] := by
            simp [main, hp, mainCore, hra, hsid, hsave]
          rw [h1] at hrun
          simp only [MainResult.success.injEq] at hrun
          obtain ⟨ht, hcid, hosid⟩ := hrun
          subst hosid
          constructor
          · intro sid2 hs2 hne2
            have hss : sid = sid2 := by simpa using hs2
            subst hss
            rw [h2, ht]
          · intro htr
            exfalso
            simp [truthyO, hsid] at htr

/-- Witness for C7_persist_batch: a fresh turn returning response "hi there"
and handle "sess-1" persists exactly the 3-message batch. -/
theorem C7_witness :
    (main none none (some ⟨some "hello", some "c1"⟩) none
        ⟨.ok [], fun _ => .ok ["hi there"] (some "sess-1"), .ok ()⟩).2.appends =
      [[("hello", "USER"), ("hi there", "ASSISTANT"), (encode "sess-1", "OTHER")]] :=
  (C7_persist_batch none none ⟨some "hello", some "c1"⟩ none
      ⟨.ok [], fun _ => .ok ["hi there"] (some "sess-1"), .ok ()⟩
      "hi there" "c1" (some "sess-1") (by decide)).1 "sess-1" rfl (by decide)

/-! ## Claim C8 -/

/-- Claim C8: a create_event failure is swallowed — the request's outcome
(including the success result's response, conversation id and session id,
and the whole observable trace) is identical whether the persistence append
succeeds or throws. -/
theorem C8_persist_failure_swallowed (env1 env2 : Option String)
    (payload : Option Payload) (ctx : Option ReqContext)
    (le : Except String (List MemEvent)) (inv : Option String → ExecResult)
    (m : String) :
    main env1 env2 payload ctx ⟨le, inv, .error m⟩ =
      main env1 env2 payload ctx ⟨le, inv, .ok ()⟩ := by
  cases payload with
  | none => rfl
  | some p =>
    by_cases hp : p.prompt.getD "" = ""
    · simp [main, hp]
    · rcases hra : runAttempts (get_stored_session_id env1 env2 le) inv with ⟨out, calls⟩
      cases out with
      | error m2 => simp [main, hp, mainCore, hra]
      | ok pr =>
        rcases pr with ⟨resps, osid⟩
        cases osid with
        | none => simp [main, hp, mainCore, hra]
        | some sid => simp [main, hp, mainCore, hra, save_session_id_indep]

/-! ## Claim C9 -/

/-- Claim C9: a missing (or falsy) payload, and a missing or empty prompt,
are answered with an error result directly, with an empty trace: the store
is never listed, the invoker is never called, and nothing is appended. -/
theorem C9_input_validation (env1 env2 : Option String) (ctx : Option ReqContext)
    (orc : Oracles) (p : Payload) (hp : p.prompt.getD "" = "") :
    main env1 env2 none ctx orc = (.err "No payload provided", ⟨0, [], []⟩) ∧
      main env1 env2 (some p) ctx orc = (.err "No prompt provided", ⟨0, [], []⟩) :=
  ⟨rfl, by simp [main, hp]⟩

/-- Witness for C9_input_validation with a missing payload and an absent
prompt field. -/
theorem C9_witness :
    main none none none none ⟨.ok [], fun _ => .ok [] none, .ok ()⟩ =
        (.err "No payload provided", ⟨0, [], []⟩) ∧
      main none none (some ⟨none, none⟩) none ⟨.ok [], fun _ => .ok [] none, .ok ()⟩ =
        (.err "No prompt provided", ⟨0, [], []⟩) :=
  C9_input_validation none none none ⟨.ok [], fun _ => .ok [] none, .ok ()⟩ ⟨none, none⟩ rfl

/-! ## Claim C10 -/

/-- Claim C10: the resume-failure classification lowercases the exception
message first and tests exactly the substrings "no conversation found" and
"exit code 1": it matches exactly when the message contains a letter-case
variant of either substring, a matching failure triggers the single fresh
fallback (two invoker calls: resume hint then none), and any other failure
message is fatal — one invoker call and the error returned unchanged. -/
theorem C10_classification (env1 env2 : Option String) (p : Payload)
    (ctx : Option ReqContext) (orc : Oracles) (s m : String)
    (hprompt : p.prompt.getD "" ≠ "")
    (hstored : get_stored_session_id env1 env2 orc.listEvents = some s) (hs : s ≠ "")
    (hfail : orc.invoke (some s) = .err m) :
    (resumeFailureMatches m = true ↔
      ∃ l₁ c l₂, m.data = l₁ ++ c ++ l₂ ∧
        (c.map Char.toLower = "no conversation found".data ∨
          c.map Char.toLower = "exit code 1".data)) ∧
    (resumeFailureMatches m = true →
      (main env1 env2 (some p) ctx orc).2.invokerCalls = [some s, none]) ∧
    (resumeFailureMatches m = false →
      (main env1 env2 (some p) ctx orc).2.invokerCalls = [some s] ∧
        (main env1 env2 (some p) ctx orc).1 = .err m) := by
  refine ⟨?_, ?_, ?_⟩
  · unfold resumeFailureMatches
    rw [Bool.or_eq_true]
    constructor
    · rintro (h1 | h2)
      · rcases containsSub_map_toLower.mp h1 with ⟨l₁, c, l₂, hd, hc⟩
        exact ⟨l₁, c, l₂, hd, Or.inl hc⟩
      · rcases containsSub_map_toLower.mp h2 with ⟨l₁, c, l₂, hd, hc⟩
        exact ⟨l₁, c, l₂, hd, Or.inr hc⟩
    · rintro ⟨l₁, c, l₂, hd, hc | hc⟩
      · exact Or.inl (containsSub_map_toLower.mpr ⟨l₁, c, l₂, hd, hc⟩)
      · exact Or.inr (containsSub_map_toLower.mpr ⟨l₁, c, l₂, hd, hc⟩)
  · intro hm
    cases hiv : orc.invoke none with
    | ok r sid =>
      simp [main, hprompt, mainCore, hstored, runAttempts, hs, resumeAttempt, hfail,
        hm, hiv]
    | err m2 =>
      simp [main, hprompt, mainCore, hstored, runAttempts, hs, resumeAttempt, hfail,
        hm, hiv]
  · intro hm
    constructor <;>
      simp [main, hprompt, mainCore, hstored, runAttempts, hs, resumeAttempt, hfail, hm]

/-- Witness for C10_classification: a failure message carrying the
"exit code 1" signature in mixed letter case triggers the fresh fallback. -/
theorem C10_witness :
    (main none none (some ⟨some "hi", some "c1"⟩) none
        ⟨.ok [.ok [.msg "OTHER" (some "__SESSION__:sx")]],
          fun r => match r with
            | some _ => .err "Command failed with Exit Code 1"
            | none => .ok ["fresh"] (some "sy"),
          .ok ()⟩).2.invokerCalls = [some "sx", none] :=
  (C10_classification none none ⟨some "hi", some "c1"⟩ none
      ⟨.ok [.ok [.msg "OTHER" (some "__SESSION__:sx")]],
        fun r => match r with
          | some _ => .err "Command failed with Exit Code 1"
          | none => .ok ["fresh"] (some "sy"),
        .ok ()⟩ "sx" "Command failed with Exit Code 1"
      (by decide) (by decide) (by decide) rfl).2.1 (by decide)

end AgentCore
